import Mathlib

set_option maxRecDepth 16000

/-!
Shallow embedding of the Nexus SEO Dash asynchronous crawl job engine
(the phase-3 express server: in-memory job store, `processJob` worker,
submit/poll endpoints, retention sweep) and of the deterministic scoring
engine plus client orchestration in `services/crawlerService.ts`
(`analyzeMetaDescription`, `processRealData`, `generateMockAudit`,
`crawlWebsite`), together with proofs settling the specification claims
about them.  Ambient effects of the JavaScript runtime (`Date.now()`,
`crypto.randomUUID()`, browser navigation outcomes, HTTP responses) are
passed as explicit parameters or oracles.
-/

namespace NexusSEO

/-- The extraction result shape produced by the headless extractor
(the `page.evaluate` block of the phase-3 server, lines 87-117). -/
structure ExtractedData where
  title : String
  description : String
  h1s : List String
  imgCount : Nat
  missingAltCount : Nat
  linkCount : Nat
  internalLinkCount : Nat
  wordCount : Nat
  loadTime : Nat
deriving DecidableEq, Repr

/-- The `JobStatus` enum (server lines 26-31). -/
inductive JobStatus where
  | PENDING
  | PROCESSING
  | COMPLETED
  | FAILED
deriving DecidableEq, Repr

/-- A job record, as created by `POST /api/jobs` (server lines 147-154) and
mutated by `processJob`.  Timestamps are `Date.now()` values in ms. -/
structure Job where
  id : String
  url : String
  status : JobStatus
  submittedAt : Nat
  startedAt : Option Nat
  completedAt : Option Nat
  result : Option ExtractedData
  error : Option String
deriving DecidableEq, Repr

/-- The in-memory job store (`const jobStore = new Map()`), modelled as a
keyed partial map. -/
abbrev JobStore := String → Option Job

/-- The store at server start: empty. -/
def emptyStore : JobStore := fun _ => none

/-- `jobStore.set(id, j)`. -/
def storeSet (s : JobStore) (id : String) (j : Job) : JobStore :=
  fun k => if k = id then some j else s k

/-- The job-record insertion performed by `POST /api/jobs`
(server lines 144-156). -/
def submitJob (s : JobStore) (jobId url : String) (now : Nat) : JobStore :=
  storeSet s jobId
    { id := jobId, url := url, status := .PENDING, submittedAt := now,
      startedAt := none, completedAt := none, result := none, error := none }

/-- Actions the background worker performs against the outside world. -/
inductive WorkerAction where
  | launchBrowser
  | navigate (url : String)
  | extract
  | closeBrowser
deriving DecidableEq, Repr

/-- The possible outcomes of the worker body (server lines 55-117): the
`puppeteer.launch` call throws, or `page.goto`/the response check/the
`page.evaluate` call throws (navigation error, timeout, non-success HTTP
status, malformed page), or extraction succeeds with data. -/
inductive ExtractionOutcome where
  | launchFailed (msg : String)
  | navFailed (msg : String)
  | extracted (data : ExtractedData)
deriving DecidableEq, Repr

/-- The `try` block result seen at the `catch` boundary. -/
def outcomeResult : ExtractionOutcome → Except String ExtractedData
  | .launchFailed msg => .error msg
  | .navFailed msg => .error msg
  | .extracted data => .ok data

/-- The external actions the worker body performs for each outcome; the
browser is launched first in every case, and the `finally` block closes it
whenever `browser` is non-null. -/
def outcomeActions (url : String) : ExtractionOutcome → List WorkerAction
  | .launchFailed _ => [.launchBrowser]
  | .navFailed _ => [.launchBrowser, .navigate url, .closeBrowser]
  | .extracted _ => [.launchBrowser, .navigate url, .extract, .closeBrowser]

/-- The terminal update of a job record (server lines 119-129): on success
status COMPLETED with the result, on any thrown error status FAILED with the
error message; both record a completion time. -/
def finishJob (j : Job) (outcome : Except String ExtractedData) (tEnd : Nat) : Job :=
  match outcome with
  | .ok data => { j with status := .COMPLETED, completedAt := some tEnd, result := some data }
  | .error msg => { j with status := .FAILED, error := some msg, completedAt := some tEnd }

/-- `processJob(jobId, url)` (server lines 44-134), end to end: look the job
up (`if (!job) return`), mark it PROCESSING with a start timestamp, run the
browser work, commit the terminal record.  `tStart` and `tEnd` are the two
`Date.now()` reads, `oc` the outcome of the browser work. -/
def processJob (s : JobStore) (jobId url : String) (oc : ExtractionOutcome)
    (tStart tEnd : Nat) : JobStore :=
  match s jobId with
  | none => s
  | some j =>
    let j1 : Job := { j with status := .PROCESSING, startedAt := some tStart }
    storeSet (storeSet s jobId j1) jobId (finishJob j1 (outcomeResult oc) tEnd)

/-- The external actions one `processJob` invocation performs: none when the
job is unknown (early return before any browser work), otherwise the actions
of the worker body.  `url` is the navigation target. -/
def processJobActions (s : JobStore) (jobId url : String) (oc : ExtractionOutcome) :
    List WorkerAction :=
  match s jobId with
  | none => []
  | some _ => outcomeActions url oc

/-- `const ONE_HOUR = 60 * 60 * 1000` (server line 192). -/
def ONE_HOUR : Nat := 60 * 60 * 1000

/-- The sweep condition `job.completedAt && (now - job.completedAt > ONE_HOUR)`
(server line 195). -/
def jobExpired (now : Nat) (j : Job) : Bool :=
  match j.completedAt with
  | some t => decide (now - t > ONE_HOUR)
  | none => false

/-- One tick of the cleanup `setInterval` (server lines 191-199): delete every
record satisfying the sweep condition, keep the rest. -/
def sweepStore (s : JobStore) (now : Nat) : JobStore :=
  fun k =>
    match s k with
    | none => none
    | some j => if jobExpired now j then none else some j

/-- One atomic mutation of the job store, as actually performed by the
program.  The event loop is single threaded, so each synchronous block of
store writes is one step:
* `submit` - the `POST /api/jobs` handler inserts a fresh PENDING record
  (`randomUUID` yields an identifier not in the store, hence the guard);
* `startWork` - a `processJob` invocation finds its job and marks it
  PROCESSING (lines 45-51).  `processJob` is invoked exactly once per job,
  synchronously queued right after its PENDING insert, and nothing else
  writes that record before it runs (the sweep only deletes records with a
  completion time), so the record it finds is still PENDING;
* `finishWork` - the same worker invocation commits the terminal update
  (lines 119-132), reached only after it set PROCESSING, and no other writer
  touches the record in between;
* `sweep` - one tick of the cleanup interval. -/
inductive JobStep : JobStore → JobStore → Prop where
  | submit (s : JobStore) (jobId url : String) (now : Nat) :
      s jobId = none → JobStep s (submitJob s jobId url now)
  | startWork (s : JobStore) (jobId : String) (t : Nat) (j : Job) :
      s jobId = some j → j.status = .PENDING →
      JobStep s (storeSet s jobId { j with status := .PROCESSING, startedAt := some t })
  | finishWork (s : JobStore) (jobId : String) (oc : Except String ExtractedData)
      (t : Nat) (j : Job) :
      s jobId = some j → j.status = .PROCESSING →
      JobStep s (storeSet s jobId (finishJob j oc t))
  | sweep (s : JobStore) (now : Nat) :
      JobStep s (sweepStore s now)

/-- Job stores reachable from the empty store at server start. -/
inductive Reachable : JobStore → Prop where
  | init : Reachable emptyStore
  | step {s s' : JobStore} : Reachable s → JobStep s s' → Reachable s'

/-- The legal status edges of the specified lifecycle state machine. -/
def allowedNext : JobStatus → JobStatus → Bool
  | .PENDING, .PROCESSING => true
  | .PROCESSING, .COMPLETED => true
  | .PROCESSING, .FAILED => true
  | _, _ => false

theorem storeSet_get_self (s : JobStore) (id : String) (j : Job) :
    storeSet s id j id = some j := by
  simp [storeSet]

theorem storeSet_get_ne (s : JobStore) (id : String) (j : Job) (k : String)
    (h : k ≠ id) : storeSet s id j k = s k := by
  simp [storeSet, h]

theorem sweepStore_get_some {s : JobStore} {now : Nat} {k : String} {j : Job}
    (h : sweepStore s now k = some j) : s k = some j := by
  unfold sweepStore at h
  cases hk : s k with
  | none => rw [hk] at h; cases h
  | some j0 =>
    rw [hk] at h
    by_cases hexp : jobExpired now j0
    · simp [hexp] at h
    · simp [hexp] at h
      rw [h]

/-- The record-level invariant maintained by every program step: `result` is
populated exactly on COMPLETED, `error` exactly on FAILED, and `completedAt`
exactly on terminal records. -/
def goodJob (j : Job) : Prop :=
  (j.result ≠ none ↔ j.status = .COMPLETED) ∧
  (j.error ≠ none ↔ j.status = .FAILED) ∧
  (j.completedAt ≠ none ↔ (j.status = .COMPLETED ∨ j.status = .FAILED))

theorem goodJob_of_step {s s' : JobStore} (hstep : JobStep s s')
    (ih : ∀ k j, s k = some j → goodJob j) :
    ∀ k j, s' k = some j → goodJob j := by
  intro k j hk
  cases hstep with
  | submit jobId url now hfresh =>
    by_cases hid : k = jobId
    · subst hid
      rw [submitJob, storeSet_get_self] at hk
      cases hk
      refine ⟨by simp, by simp, by simp⟩
    · rw [submitJob, storeSet_get_ne _ _ _ _ hid] at hk
      exact ih k j hk
  | startWork jobId t j0 hget hpend =>
    by_cases hid : k = jobId
    · subst hid
      rw [storeSet_get_self] at hk
      cases hk
      obtain ⟨h1, h2, h3⟩ := ih k j0 hget
      rw [hpend] at h1 h2 h3
      refine ⟨by simpa using h1, by simpa using h2, by simpa using h3⟩
    · rw [storeSet_get_ne _ _ _ _ hid] at hk
      exact ih k j hk
  | finishWork jobId oc t j0 hget hproc =>
    by_cases hid : k = jobId
    · subst hid
      rw [storeSet_get_self] at hk
      cases hk
      obtain ⟨h1, h2, h3⟩ := ih k j0 hget
      rw [hproc] at h1 h2 h3
      have hres : j0.result = none := by
        by_contra hne
        exact absurd (h1.mp hne) (by simp)
      have herr : j0.error = none := by
        by_contra hne
        exact absurd (h2.mp hne) (by simp)
      cases oc with
      | ok data => exact ⟨by simp [finishJob], by simp [finishJob, herr], by simp [finishJob]⟩
      | error msg => exact ⟨by simp [finishJob, hres], by simp [finishJob], by simp [finishJob]⟩
    · rw [storeSet_get_ne _ _ _ _ hid] at hk
      exact ih k j hk
  | sweep now =>
    exact ih k j (sweepStore_get_some hk)

theorem reachable_goodJob {s : JobStore} (hs : Reachable s) :
    ∀ k j, s k = some j → goodJob j := by
  induction hs with
  | init => intro k j hk; cases hk
  | step _ hstep ih => exact goodJob_of_step hstep ih

/-- Claim C1: across every atomic mutation of the job store, a job record
present before and after either keeps its status or moves along an edge of
PENDING -> PROCESSING -> (COMPLETED | FAILED); a terminal record is never
changed at all; and whenever a record enters PROCESSING its start timestamp
is set.  Since entering COMPLETED or FAILED is only allowed from PROCESSING,
no execution path reaches a terminal status without first having set
PROCESSING. -/
theorem C1_status_transitions {s s' : JobStore} (hstep : JobStep s s')
    (id : String) (j j' : Job) (hj : s id = some j) (hj' : s' id = some j') :
    (j'.status = j.status ∨ allowedNext j.status j'.status = true) ∧
    ((j.status = .COMPLETED ∨ j.status = .FAILED) → j' = j) ∧
    (j.status = .PENDING → j'.status = .PROCESSING → j'.startedAt ≠ none) := by
  cases hstep with
  | submit jobId url now hfresh =>
    by_cases hid : id = jobId
    · subst hid; rw [hfresh] at hj; cases hj
    · rw [submitJob, storeSet_get_ne _ _ _ _ hid, hj] at hj'
      cases hj'
      exact ⟨Or.inl rfl, fun _ => rfl, fun hp hq => by rw [hp] at hq; cases hq⟩
  | startWork jobId t j0 hget hpend =>
    by_cases hid : id = jobId
    · subst hid
      rw [hget] at hj; cases hj
      rw [storeSet_get_self] at hj'; cases hj'
      refine ⟨Or.inr ?_, ?_, ?_⟩
      · rw [hpend]; rfl
      · intro hterm
        rw [hpend] at hterm
        rcases hterm with h | h <;> cases h
      · intro _ _; simp
    · rw [storeSet_get_ne _ _ _ _ hid, hj] at hj'
      cases hj'
      exact ⟨Or.inl rfl, fun _ => rfl, fun hp hq => by rw [hp] at hq; cases hq⟩
  | finishWork jobId oc t j0 hget hproc =>
    by_cases hid : id = jobId
    · subst hid
      rw [hget] at hj; cases hj
      rw [storeSet_get_self] at hj'; cases hj'
      refine ⟨Or.inr ?_, ?_, ?_⟩
      · rw [hproc]; cases oc <;> rfl
      · intro hterm
        rw [hproc] at hterm
        rcases hterm with h | h <;> cases h
      · intro hp _
        rw [hproc] at hp; cases hp
    · rw [storeSet_get_ne _ _ _ _ hid, hj] at hj'
      cases hj'
      exact ⟨Or.inl rfl, fun _ => rfl, fun hp hq => by rw [hp] at hq; cases hq⟩
  | sweep now =>
    have := sweepStore_get_some hj'
    rw [hj] at this; cases this
    exact ⟨Or.inl rfl, fun _ => rfl, fun hp hq => by rw [hp] at hq; cases hq⟩

/-- A concrete PENDING record, as inserted by `submitJob`. -/
def wJob : Job :=
  { id := "job-3", url := "https://example.com", status := .PENDING, submittedAt := 0,
    startedAt := none, completedAt := none, result := none, error := none }

/-- The same record after the worker marked it PROCESSING at time 3. -/
def wJobP : Job := { wJob with status := .PROCESSING, startedAt := some 3 }

/-- Witness for C1: the concrete PENDING -> PROCESSING step of a freshly
submitted job satisfies the transition property. -/
theorem C1_witness :
    (wJobP.status = wJob.status ∨ allowedNext wJob.status wJobP.status = true) ∧
    ((wJob.status = .COMPLETED ∨ wJob.status = .FAILED) → wJobP = wJob) ∧
    (wJob.status = .PENDING → wJobP.status = .PROCESSING → wJobP.startedAt ≠ none) :=
  C1_status_transitions
    (JobStep.startWork (submitJob emptyStore "job-3" "https://example.com" 0) "job-3" 3 wJob
      (by decide) rfl)
    "job-3" wJob wJobP (by decide) (by decide)

/-- Claim C2: in every reachable job store, a job record has a non-null
result exactly when its status is COMPLETED and a non-null error exactly
when its status is FAILED (hence a PENDING record has both null, a COMPLETED
record has a result and no error, and a FAILED record the reverse). -/
theorem C2_result_error_iff {s : JobStore} (hs : Reachable s) (id : String) (j : Job)
    (hj : s id = some j) :
    (j.result ≠ none ↔ j.status = .COMPLETED) ∧
    (j.error ≠ none ↔ j.status = .FAILED) := by
  obtain ⟨h1, h2, _⟩ := reachable_goodJob hs id j hj
  exact ⟨h1, h2⟩

/-- The record created by submitting job-1 at time 5. -/
def freshJob : Job :=
  { id := "job-1", url := "https://example.com", status := .PENDING, submittedAt := 5,
    startedAt := none, completedAt := none, result := none, error := none }

/-- Witness for C2: the store holding one freshly submitted job is reachable
and its record satisfies the result/error characterisation. -/
theorem C2_witness :
    (freshJob.result ≠ none ↔ freshJob.status = .COMPLETED) ∧
    (freshJob.error ≠ none ↔ freshJob.status = .FAILED) :=
  C2_result_error_iff
    (Reachable.step Reachable.init
      (JobStep.submit emptyStore "job-1" "https://example.com" 5 rfl))
    "job-1" freshJob (by decide)

/-- Claim C3: one retention-sweep tick at time `now` deletes a stored record
exactly when its completion time is set and lies more than one hour in the
past; a record with no completion time is always kept, and in a reachable
store every PENDING or PROCESSING job is therefore never removed, regardless
of age. -/
theorem C3_retention_sweep {s : JobStore} (now : Nat) (id : String) (j : Job)
    (hj : s id = some j) :
    (sweepStore s now id = none ↔ ∃ t, j.completedAt = some t ∧ now - t > ONE_HOUR) ∧
    (j.completedAt = none → sweepStore s now id = some j) ∧
    (Reachable s → (j.status = .PENDING ∨ j.status = .PROCESSING) →
      sweepStore s now id = some j) := by
  have hswp : sweepStore s now id = if jobExpired now j then none else some j := by
    unfold sweepStore; rw [hj]
  refine ⟨?_, ?_, ?_⟩
  · rw [hswp]
    cases hc : j.completedAt with
    | none => simp [jobExpired, hc]
    | some t =>
      by_cases hgt : now - t > ONE_HOUR
      · simp [jobExpired, hc, hgt]
      · simp [jobExpired, hc, hgt]
  · intro hc
    rw [hswp]
    simp [jobExpired, hc]
  · intro hreach hst
    obtain ⟨-, -, h3⟩ := reachable_goodJob hreach id j hj
    have hc : j.completedAt = none := by
      by_contra hne
      rcases hst with h | h <;> rcases h3.mp hne with h' | h' <;> rw [h] at h' <;> cases h'
    rw [hswp]
    simp [jobExpired, hc]

/-- The extraction stub of the specification: `https://example.com` data. -/
def sampleData : ExtractedData :=
  { title := "Example Domain", description := "", h1s := ["Example Domain"],
    imgCount := 0, missingAltCount := 0, linkCount := 1, internalLinkCount := 0,
    wordCount := 28, loadTime := 200 }

/-- A COMPLETED record whose completion time is 0. -/
def doneJob : Job :=
  { id := "job-2", url := "https://example.com", status := .COMPLETED, submittedAt := 0,
    startedAt := some 0, completedAt := some 0, result := some sampleData, error := none }

/-- Witness for C3: a job completed 61 minutes before the sweep is removed,
one completed 59 minutes before it is retained. -/
theorem C3_witness :
    sweepStore (storeSet emptyStore "job-2" doneJob) 3660000 "job-2" = none ∧
    sweepStore (storeSet emptyStore "job-2" doneJob) 3540000 "job-2" = some doneJob := by
  constructor
  · exact (C3_retention_sweep 3660000 "job-2" doneJob (by decide)).1.mpr ⟨0, rfl, by decide⟩
  · decide

/-- Claim C10: invoking the background worker on a job identifier that is not
in the store is a no-op: the store is returned unchanged and no external
action (browser launch, navigation) is performed. -/
theorem C10_unknown_job_noop (s : JobStore) (jobId url : String)
    (oc : ExtractionOutcome) (tStart tEnd : Nat) (h : s jobId = none) :
    processJob s jobId url oc tStart tEnd = s ∧
    processJobActions s jobId url oc = [] := by
  unfold processJob processJobActions
  rw [h]
  exact ⟨rfl, rfl⟩

/-- Witness for C10: the worker run against the empty store does nothing. -/
theorem C10_witness :
    processJob emptyStore "ghost" "https://example.com" (.extracted sampleData) 0 1
      = emptyStore ∧
    processJobActions emptyStore "ghost" "https://example.com" (.extracted sampleData) = [] :=
  C10_unknown_job_noop emptyStore "ghost" "https://example.com" (.extracted sampleData) 0 1 rfl

/-- JavaScript `s.toLowerCase()`, as a character-wise lowercase map (the
strings involved are ASCII). -/
def jsToLower (s : String) : String := ⟨s.data.map Char.toLower⟩

/-- Leading-segment test on character lists: `charsLead needle hay` is true
when `needle` occurs at the start of `hay`. -/
def charsLead : List Char → List Char → Bool
  | [], _ => true
  | _ :: _, [] => false
  | a :: as, b :: bs => a == b && charsLead as bs

/-- Contiguous-occurrence test on character lists. -/
def charsOccur : List Char → List Char → Bool
  | needle, [] => needle.isEmpty
  | needle, c :: rest => charsLead needle (c :: rest) || charsOccur needle rest

/-- JavaScript `hay.includes(needle)`: `needle` occurs contiguously in `hay`
(true for the empty needle). -/
def jsIncludes (hay needle : String) : Bool :=
  charsOccur needle.data hay.data

/-- The `MetaTag` shape of `types.ts` (optional boolean flags modelled with
`Option Bool`; the title analysis leaves `hasCTA` undefined). -/
structure MetaTag where
  content : String
  length : Nat
  hasKeyword : Option Bool
  hasCTA : Option Bool
  score : Int
  recommendations : List String
deriving DecidableEq, Repr

/-- The fixed call-to-action vocabulary (crawlerService.ts line 101). -/
def ctaWords : List String :=
  ["call", "shop", "buy", "learn", "discover", "get", "sign", "contact", "try",
    "join", "click", "read"]

/-- `analyzeMetaDescription(content, domainKeyword)` (crawlerService.ts lines
75-116): score starts at 100; empty content short-circuits with score 0 and
one recommendation; length below 120 costs 20, above 165 costs 10; a
non-empty keyword missing from the lower-cased content costs 30; absence of
every CTA word costs 30; the final score is clamped below at 0. -/
def analyzeMetaDescription (content : String) (domainKeyword : String) : MetaTag :=
  let lowerContent := jsToLower content
  if content.length = 0 then
    { content := content, length := 0, score := 0,
      recommendations := ["Meta description is missing."],
      hasKeyword := some false, hasCTA := some false }
  else
    let lengthScore : Int :=
      if content.length < 120 then 100 - 20
      else if content.length > 165 then 100 - 10
      else 100
    let lengthRecs : List String :=
      if content.length < 120 then
        ["Description is too short (" ++ toString content.length ++
          " chars). Aim for 150-160 characters."]
      else if content.length > 165 then
        ["Description is too long (" ++ toString content.length ++
          " chars). Truncation may occur in SERPs."]
      else []
    let hasKeyword := jsIncludes lowerContent (jsToLower domainKeyword)
    let keywordScore : Int :=
      if hasKeyword = false ∧ 0 < domainKeyword.length then lengthScore - 30
      else lengthScore
    let keywordRecs : List String :=
      if hasKeyword = false ∧ 0 < domainKeyword.length then
        lengthRecs ++
          ["Primary keyword \"" ++ domainKeyword ++ "\" is missing from the description."]
      else lengthRecs
    let hasCTA := ctaWords.any fun w => jsIncludes lowerContent w
    let ctaScore : Int := if hasCTA = false then keywordScore - 30 else keywordScore
    let ctaRecs : List String :=
      if hasCTA = false then
        keywordRecs ++
          ["No Call-to-Action detected (e.g., \x27Learn more\x27, \x27Sign up\x27, \x27Discover\x27)."]
      else keywordRecs
    { content := content, length := content.length,
      hasKeyword := some hasKeyword, hasCTA := some hasCTA,
      score := max 0 ctaScore, recommendations := ctaRecs }

/-- Claim C4: the meta-description analyzer gives empty content score 0 with
exactly one recommendation and skips every other check; otherwise the score
is 100 minus 20 for length below 120, minus 10 for length above 165, minus
30 when a non-empty keyword is not a case-insensitive substring, minus 30
when no CTA word occurs case-insensitively, clamped below at 0, and each
triggered rule appends exactly one recommendation. -/
theorem C4_meta_description_score (content domainKeyword : String) :
    (content.length = 0 →
      (analyzeMetaDescription content domainKeyword).score = 0 ∧
      (analyzeMetaDescription content domainKeyword).recommendations.length = 1) ∧
    (content.length ≠ 0 →
      (analyzeMetaDescription content domainKeyword).score =
        max 0 (100 - (if content.length < 120 then 20 else 0)
                   - (if content.length > 165 then 10 else 0)
                   - (if jsIncludes (jsToLower content) (jsToLower domainKeyword) = false ∧
                         0 < domainKeyword.length then 30 else 0)
                   - (if (ctaWords.any fun w => jsIncludes (jsToLower content) w) = false
                      then 30 else 0)) ∧
      (analyzeMetaDescription content domainKeyword).recommendations.length =
        (if content.length < 120 then 1 else 0)
          + (if content.length > 165 then 1 else 0)
          + (if jsIncludes (jsToLower content) (jsToLower domainKeyword) = false ∧
                0 < domainKeyword.length then 1 else 0)
          + (if (ctaWords.any fun w => jsIncludes (jsToLower content) w) = false
             then 1 else 0)) := by
  constructor
  · intro h
    simp [analyzeMetaDescription, h]
  · intro h
    unfold analyzeMetaDescription
    rw [if_neg h]
    dsimp only
    constructor
    · split_ifs <;> omega
    · split_ifs <;> first | rfl | omega

/-- A 50-character description containing neither the keyword `example` nor
any CTA word. -/
def descFifty : String := "a quick brown fox jumps over a lazy sleepy dog now"

/-- A 140-character description containing the keyword `example` and the CTA
word `learn`. -/
def descOneForty : String :=
  "Learn more about the example platform and discover how our simple tools help your team plan, measure and improve outcomes every single week."

/-- Witness for C4: empty content scores 0 with one recommendation; the
50-character keyword-free CTA-free text scores 20 with three
recommendations; the 140-character text with keyword and CTA scores 100
with none. -/
theorem C4_witness :
    (analyzeMetaDescription "" "example").score = 0 ∧
    (analyzeMetaDescription "" "example").recommendations.length = 1 ∧
    (analyzeMetaDescription descFifty "example").score = 20 ∧
    (analyzeMetaDescription descFifty "example").recommendations.length = 3 ∧
    (analyzeMetaDescription descOneForty "example").score = 100 ∧
    (analyzeMetaDescription descOneForty "example").recommendations.length = 0 := by
  refine ⟨?_, ?_, ?_, ?_, ?_, ?_⟩
  · exact ((C4_meta_description_score "" "example").1 (by decide)).1
  · exact ((C4_meta_description_score "" "example").1 (by decide)).2
  · rw [((C4_meta_description_score descFifty "example").2 (by decide)).1]; decide
  · rw [((C4_meta_description_score descFifty "example").2 (by decide)).2]; decide
  · rw [((C4_meta_description_score descOneForty "example").2 (by decide)).1]; decide
  · rw [((C4_meta_description_score descOneForty "example").2 (by decide)).2]; decide

/-- `{ valid, score, issues }` sub-record (ssl / mobileResponsive). -/
structure SSLInfo where
  valid : Bool
  score : Int
  issues : List String

/-- The `CanonicalTag` shape of `types.ts`. -/
structure CanonicalTag where
  present : Bool
  url : String
  count : Nat
  score : Int
  issues : List String

/-- The `CoreWebVitals` shape of `types.ts`; fractional metrics are modelled
over exact rationals. -/
structure CoreWebVitals where
  lcp : ℚ
  fid : Int
  cls : ℚ

/-- The `pageSpeed` sub-record; the mock path assigns a possibly fractional
number, so desktop/mobile/score are rationals. -/
structure PageSpeedInfo where
  desktop : ℚ
  mobile : ℚ
  cwv : CoreWebVitals
  score : ℚ

/-- The `sitemap` sub-record. -/
structure SitemapInfo where
  present : Bool
  valid : Bool
  url : String
  score : Int

/-- The `SchemaError` shape of `types.ts`. -/
structure SchemaError where
  type : String
  message : String

/-- The `schema` sub-record. -/
structure SchemaInfo where
  types : List String
  valid : Bool
  errors : List SchemaError
  score : Int

/-- The `metaTags` sub-record. -/
structure MetaTagsInfo where
  title : MetaTag
  description : MetaTag

/-- The `technical` section of a `WebsiteAudit`. -/
structure TechnicalAudit where
  ssl : SSLInfo
  canonical : CanonicalTag
  pageSpeed : PageSpeedInfo
  mobileResponsive : SSLInfo
  sitemap : SitemapInfo
  schema : SchemaInfo
  metaTags : MetaTagsInfo

/-- The `HeaderTag` shape of `types.ts`. -/
structure HeaderTag where
  tag : String
  content : String

/-- The `headers` sub-record; the field named `structure` in the source is
renamed `headerStructure` (`structure` is a Lean keyword). -/
structure HeadersInfo where
  h1Count : Nat
  headerStructure : List HeaderTag
  score : Int

/-- The `internalLinks` sub-record. -/
structure LinksInfo where
  count : Nat
  broken : Nat
  score : Int

/-- The `images` sub-record. -/
structure ImagesInfo where
  total : Nat
  missingAlt : Nat
  optimized : Nat
  score : Int

/-- The `onPage` section of a `WebsiteAudit`. -/
structure OnPageAudit where
  headers : HeadersInfo
  internalLinks : LinksInfo
  images : ImagesInfo
  wordCount : Nat

/-- The `IndustryClassification` shape of `types.ts`. -/
structure IndustryClassification where
  primary : String
  subCategory : String
  confidence : ℚ
  reasoning : String

/-- The `ImpactLevel` enum of `types.ts`. -/
inductive ImpactLevel where
  | HIGH
  | MEDIUM
  | LOW

/-- The `EffortLevel` enum of `types.ts`. -/
inductive EffortLevel where
  | HIGH
  | MEDIUM
  | LOW

/-- The `Recommendation` shape of `types.ts`. -/
structure Recommendation where
  id : String
  priority : Nat
  title : String
  impact : ImpactLevel
  effort : EffortLevel
  category : String
  description : String
  steps : List String
  estimatedTime : String

/-- The `Keyword` shape of `types.ts` (`difficulty` is a string union). -/
structure Keyword where
  phrase : String
  volume : Nat
  difficulty : String
  intent : String

/-- The `aiAnalysis` section (all fields optional). -/
structure AIAnalysis where
  industry : Option IndustryClassification
  recommendations : Option (List Recommendation)
  keywordOpportunities : Option (List Keyword)
  summary : Option String

/-- `aiAnalysis: {}` as assigned by both audit builders. -/
def emptyAIAnalysis : AIAnalysis := ⟨none, none, none, none⟩

/-- The `scores` section. -/
structure ScoresInfo where
  overall : Int
  technical : Int
  onPage : Int
  content : Int

/-- The `WebsiteAudit` shape of `types.ts`. -/
structure WebsiteAudit where
  id : String
  websiteUrl : String
  auditDate : String
  technical : TechnicalAudit
  onPage : OnPageAudit
  aiAnalysis : AIAnalysis
  scores : ScoresInfo

/-- `extractDomain` (crawlerService.ts lines 118-124): `new URL(url).hostname`
with the `catch` branch returning the raw input.  Simplified model of the
WHATWG parser: the text after `"://"` up to the first path, port, query or
fragment delimiter; a string without a scheme separator makes `new URL`
throw, so it is returned unchanged.  No claim depends on its fine points. -/
def extractDomain (url : String) : String :=
  match url.splitOn "://" with
  | _ :: after :: _ => after.takeWhile fun c => c != '/' && c != ':' && c != '?' && c != '#'
  | _ => url

/-- The performance-score block of `processRealData` (lines 144-149), hoisted:
load time in seconds over exact rationals, 100 with 20 lost above 2.5 s, a
further 30 above 4.0 s, a further 20 above 6.0 s, floored at 10.  Integer
millisecond inputs keep every float comparison of the source exact. -/
def performanceScore (loadTime : Nat) : Int :=
  let loadTimeSec : ℚ := (loadTime : ℚ) / 1000
  let s1 : Int := if loadTimeSec > 2.5 then 100 - 20 else 100
  let s2 : Int := if loadTimeSec > 4.0 then s1 - 30 else s1
  let s3 : Int := if loadTimeSec > 6.0 then s2 - 20 else s2
  max 10 s3

/-- The image-score block of `processRealData` (lines 151-156), hoisted:
`Math.round(100 * (1 - missingAltCount / imgCount))` when any image exists,
100 otherwise.  `round` on rationals is floor of x + 1/2, exactly the
JavaScript half-up rounding on these non-negative values. -/
def imageScore (imgCount missingAltCount : Nat) : Int :=
  if 0 < imgCount then round ((100 : ℚ) * (1 - (missingAltCount : ℚ) / (imgCount : ℚ)))
  else 100

/-- `parseFloat((loadTimeSec * 0.8).toFixed(2))` (line 159), modelled as exact
rounding of the rational value to two decimal places. -/
def estimatedLCP (loadTime : Nat) : ℚ :=
  (round ((loadTime : ℚ) / 1000 * 0.8 * 100) : ℤ) / 100

/-- `Math.round(loadTimeSec * 20)` (line 184). -/
def fidEstimate (loadTime : Nat) : Int :=
  round ((loadTime : ℚ) / 1000 * 20)

/-- `processRealData(url, data)` (crawlerService.ts lines 129-229).  The two
ambient effects of the construction - `crypto.randomUUID()` and
`new Date().toISOString()` - are passed in as `uuid` and `nowIso`: they are
whatever the runtime produced during this particular run. -/
def processRealData (url : String) (data : ExtractedData) (uuid nowIso : String) :
    WebsiteAudit :=
  let domain := extractDomain url
  let domainKeyword := (domain.splitOn ".").headD ""
  let isSecure := url.startsWith "https"
  let metaDescriptionAnalysis := analyzeMetaDescription data.description domainKeyword
  let titleScore : Int := if 30 ≤ data.title.length ∧ data.title.length ≤ 60 then 100 else 50
  let titleRecs : List String :=
    (if data.title.length < 30 then ["Title is too short (recommended 30-60 chars)"] else [])
      ++ (if data.title.length > 60 then ["Title is too long (recommended 30-60 chars)"] else [])
  let perfScore := performanceScore data.loadTime
  let imgScore := imageScore data.imgCount data.missingAltCount
  { id := uuid
    websiteUrl := url
    auditDate := nowIso
    technical :=
      { ssl :=
          { valid := isSecure, score := if isSecure then 100 else 0,
            issues := if isSecure then [] else ["SSL Certificate missing or invalid"] }
        canonical := { present := true, url := url, count := 1, score := 100, issues := [] }
        pageSpeed :=
          { desktop := (perfScore : ℚ), mobile := (perfScore : ℚ) - 15,
            cwv := { lcp := estimatedLCP data.loadTime, fid := fidEstimate data.loadTime,
                     cls := 0.05 },
            score := (perfScore : ℚ) }
        mobileResponsive := { valid := true, score := 90, issues := [] }
        sitemap := { present := true, valid := true, url := url ++ "/sitemap.xml", score := 100 }
        schema := { types := ["Organization"], valid := true, errors := [], score := 85 }
        metaTags :=
          { title :=
              { content := data.title, length := data.title.length,
                hasKeyword := some (jsIncludes (jsToLower data.title) domainKeyword),
                hasCTA := none, score := titleScore, recommendations := titleRecs }
            description := metaDescriptionAnalysis } }
    onPage :=
      { headers :=
          { h1Count := data.h1s.length,
            headerStructure := data.h1s.map fun h1 => { tag := "h1", content := h1 },
            score := if data.h1s.length = 1 then 100 else 50 }
        internalLinks := { count := data.internalLinkCount, broken := 0, score := 90 }
        images :=
          { total := data.imgCount, missingAlt := data.missingAltCount, optimized := 0,
            score := imgScore }
        wordCount := data.wordCount }
    aiAnalysis := emptyAIAnalysis
    scores :=
      { overall := Int.fdiv (perfScore + imgScore + 80 + metaDescriptionAnalysis.score) 4
        technical := Int.fdiv (perfScore + 100 + metaDescriptionAnalysis.score) 3
        onPage :=
          Int.fdiv (imgScore + (if data.h1s.length = 1 then 100 else 50) + 80) 3
        content := 70 } }

/-- `generateMockAudit(url)` (crawlerService.ts lines 233-274), with `uuid`
and `nowIso` as in `processRealData`.  Arithmetic is modelled over exact
rationals; the JavaScript engine computes `lcp * 10` in binary floating
point, whose sub-1e-13 deviation is immaterial to every claim here. -/
def generateMockAudit (url : String) (uuid nowIso : String) : WebsiteAudit :=
  let seed := url.length
  let isSecure := url.startsWith "https"
  let domain := extractDomain url
  let domainKeyword := (domain.splitOn ".").headD ""
  let lcp : ℚ := 1.2 + (seed % 3 : ℚ)
  let perfScore : ℚ := max 10 (100 - lcp * 10)
  let metaDescContent : String :=
    if seed % 3 = 0 then
      "Discover the best " ++ domainKeyword ++ " solutions. Join satisfied customers."
    else "Generic description text."
  let metaDescriptionAnalysis := analyzeMetaDescription metaDescContent domainKeyword
  { id := uuid
    websiteUrl := url
    auditDate := nowIso
    technical :=
      { ssl := { valid := isSecure, score := if isSecure then 100 else 0, issues := [] }
        canonical := { present := true, url := url, count := 1, score := 100, issues := [] }
        pageSpeed :=
          { desktop := perfScore, mobile := perfScore - 15,
            cwv := { lcp := lcp, fid := 30, cls := 0.05 }, score := perfScore }
        mobileResponsive := { valid := true, score := 90, issues := [] }
        sitemap := { present := true, valid := true, url := url ++ "/sitemap.xml", score := 100 }
        schema := { types := ["Organization"], valid := true, errors := [], score := 85 }
        metaTags :=
          { title := { content := "Home | " ++ domain, length := 25, hasKeyword := some true,
                       hasCTA := none, score := 60, recommendations := [] }
            description := metaDescriptionAnalysis } }
    onPage :=
      { headers := { h1Count := 1, headerStructure := [{ tag := "h1", content := "Main" }],
                     score := 95 }
        internalLinks := { count := 12, broken := 0, score := 100 }
        images := { total := 8, missingAlt := 2, optimized := 6, score := 80 }
        wordCount := 850 }
    aiAnalysis := emptyAIAnalysis
    scores := { overall := 85, technical := 90, onPage := 80, content := 70 } }

/-- Claim C5 (amended): the desktop page-speed score is the performance score
of the extracted load time - 100, minus 20 when loadTime/1000 exceeds 2.5,
minus a further 30 above 4.0, minus a further 20 above 6.0, floored at 10 -
and the mobile score is always the desktop score minus 15 with no
independent floor.  The three penalties total at most 70, so the desktop
score is always at least 30 and the floor at 10 can never bind (loadTime
10000 therefore scores 30, not the 10 claimed). -/
theorem C5_performance_score (url : String) (data : ExtractedData) (uuid nowIso : String) :
    (processRealData url data uuid nowIso).technical.pageSpeed.desktop
        = (performanceScore data.loadTime : ℚ) ∧
    (processRealData url data uuid nowIso).technical.pageSpeed.mobile
        = (processRealData url data uuid nowIso).technical.pageSpeed.desktop - 15 ∧
    performanceScore data.loadTime
        = max 10 (100 - (if (data.loadTime : ℚ) / 1000 > 2.5 then 20 else 0)
                      - (if (data.loadTime : ℚ) / 1000 > 4.0 then 30 else 0)
                      - (if (data.loadTime : ℚ) / 1000 > 6.0 then 20 else 0)) ∧
    30 ≤ performanceScore data.loadTime := by
  refine ⟨rfl, rfl, ?_, ?_⟩
  · unfold performanceScore
    dsimp only
    split_ifs <;> omega
  · unfold performanceScore
    dsimp only
    split_ifs <;> omega

/-- `sampleData` with the load time replaced. -/
def sampleDataAt (lt : Nat) : ExtractedData := { sampleData with loadTime := lt }

theorem performanceScore_eval :
    performanceScore 1500 = 100 ∧ performanceScore 3000 = 80 ∧
    performanceScore 5000 = 50 ∧ performanceScore 10000 = 30 := by
  norm_num [performanceScore]

/-- Claim C5, counterexample: at loadTime 10000 ms the desktop score is 30;
it is not the 10 claimed by the specification example, because the three
penalties only reach 100 - 70 = 30 and the floor at 10 never binds. -/
theorem C5_counterexample :
    (processRealData "https://example.com" (sampleDataAt 10000)
        "uuid-0" "2025-01-01T00:00:00.000Z").technical.pageSpeed.desktop = 30 ∧
    ¬ (processRealData "https://example.com" (sampleDataAt 10000)
        "uuid-0" "2025-01-01T00:00:00.000Z").technical.pageSpeed.desktop = 10 := by
  constructor
  · show (performanceScore 10000 : ℚ) = 30
    rw [performanceScore_eval.2.2.2]
    norm_num
  · show ¬ (performanceScore 10000 : ℚ) = 10
    rw [performanceScore_eval.2.2.2]
    norm_num

/-- Witness for C5: load times 1500, 3000, 5000 and 10000 ms score 100, 80,
50 and 30 on desktop, and 10000 ms scores 15 on mobile. -/
theorem C5_witness :
    (processRealData "https://example.com" (sampleDataAt 1500)
        "u" "t").technical.pageSpeed.desktop = 100 ∧
    (processRealData "https://example.com" (sampleDataAt 3000)
        "u" "t").technical.pageSpeed.desktop = 80 ∧
    (processRealData "https://example.com" (sampleDataAt 5000)
        "u" "t").technical.pageSpeed.desktop = 50 ∧
    (processRealData "https://example.com" (sampleDataAt 10000)
        "u" "t").technical.pageSpeed.mobile = 15 := by
  refine ⟨?_, ?_, ?_, ?_⟩
  · rw [(C5_performance_score "https://example.com" (sampleDataAt 1500) "u" "t").1]
    rw [show (sampleDataAt 1500).loadTime = 1500 from rfl, performanceScore_eval.1]
    norm_num
  · rw [(C5_performance_score "https://example.com" (sampleDataAt 3000) "u" "t").1]
    rw [show (sampleDataAt 3000).loadTime = 3000 from rfl, performanceScore_eval.2.1]
    norm_num
  · rw [(C5_performance_score "https://example.com" (sampleDataAt 5000) "u" "t").1]
    rw [show (sampleDataAt 5000).loadTime = 5000 from rfl, performanceScore_eval.2.2.1]
    norm_num
  · rw [(C5_performance_score "https://example.com" (sampleDataAt 10000) "u" "t").2.1]
    rw [(C5_performance_score "https://example.com" (sampleDataAt 10000) "u" "t").1]
    rw [show (sampleDataAt 10000).loadTime = 10000 from rfl, performanceScore_eval.2.2.2]
    norm_num

/-- Claim C9, counterexample: the scoring transformation is not deterministic
in identity - two runs on the same `(url, data)` input draw distinct fresh
UUIDs from the runtime, and the resulting audit objects differ. -/
theorem C9_counterexample :
    processRealData "https://example.com" sampleData "uuid-a" "2025-01-01T00:00:00.000Z"
      ≠ processRealData "https://example.com" sampleData "uuid-b" "2025-01-01T00:00:00.000Z" := by
  intro h
  have hid : ("uuid-a" : String) = "uuid-b" := congrArg WebsiteAudit.id h
  exact absurd hid (by decide)

/-- Claim C9 (amended): apart from the freshly generated identity and audit
timestamp, the transformation is deterministic - two runs on the same
`(url, data)` input agree on the website URL and on every technical,
on-page, AI and aggregate-score section. -/
theorem C9_scoring_deterministic (url : String) (data : ExtractedData)
    (uuid1 nowIso1 uuid2 nowIso2 : String) :
    (processRealData url data uuid1 nowIso1).websiteUrl
        = (processRealData url data uuid2 nowIso2).websiteUrl ∧
    (processRealData url data uuid1 nowIso1).technical
        = (processRealData url data uuid2 nowIso2).technical ∧
    (processRealData url data uuid1 nowIso1).onPage
        = (processRealData url data uuid2 nowIso2).onPage ∧
    (processRealData url data uuid1 nowIso1).aiAnalysis
        = (processRealData url data uuid2 nowIso2).aiAnalysis ∧
    (processRealData url data uuid1 nowIso1).scores
        = (processRealData url data uuid2 nowIso2).scores :=
  ⟨rfl, rfl, rfl, rfl, rfl⟩

/-- `const POLLING_INTERVAL_MS = 2000` (crawlerService.ts line 12). -/
def POLLING_INTERVAL_MS : Nat := 2000

/-- `const MAX_POLLING_ATTEMPTS = 30` (crawlerService.ts line 13, annotated
as the 60-second maximum wait). -/
def MAX_POLLING_ATTEMPTS : Nat := 30

/-- What one `GET /api/jobs/:id` poll can yield for the loop: a non-ok HTTP
response (`pollResponse.ok` false), a body that fails to parse or
destructure (any throw while reading or processing the payload, including a
malformed result shape), or a parsed job view with status, result and
error. -/
inductive PollOutcome where
  | notOk
  | badJson
  | jobView (status : JobStatus) (result : Option ExtractedData) (error : Option String)

/-- What the `POST /api/jobs` submission can yield: a non-ok response (the
handler threw `Job Submission Failed`), a body that fails to parse, or an
accepted job identifier. -/
inductive SubmitOutcome where
  | notOk (statusText : String)
  | badJson
  | accepted (jobId : String)

/-- The network environment one `crawlWebsite` run observes: the submission
outcome and the outcome of the i-th poll request. -/
structure CrawlEnv where
  submit : SubmitOutcome
  poll : Nat → PollOutcome

/-- JavaScript `a || b` on an optional string (the empty string is falsy). -/
def jsOrString (a : Option String) (b : String) : String :=
  match a with
  | some str => if str = "" then b else str
  | none => b

/-- The polling `while` loop of `crawlWebsite` (crawlerService.ts lines
41-62), step indexed: `fuel` bounds how many iterations are observed, `i`
counts iterations (indexing the poll oracle), `attempts` is the loop
counter.  `none` means the loop has not delivered a result within `fuel`
iterations; a result that is `none` for every `fuel` is a loop that never
terminates.  The embedding keeps the faithful quirk of line 46: a non-ok
poll response runs `continue` WITHOUT incrementing `attempts`.  A COMPLETED
status with a null result satisfies neither terminal test and falls through
to `attempts++`, exactly as in the source. -/
def pollLoop (poll : Nat → PollOutcome) :
    Nat → Nat → Nat → Option (Except String ExtractedData)
  | 0, _, _ => none
  | fuel + 1, i, attempts =>
    if attempts < MAX_POLLING_ATTEMPTS then
      match poll i with
      | .notOk => pollLoop poll fuel (i + 1) attempts
      | .badJson => some (.error "poll response body could not be parsed")
      | .jobView .COMPLETED (some data) _ => some (.ok data)
      | .jobView .FAILED _ e => some (.error (jsOrString e "Crawler job failed on server"))
      | .jobView _ _ _ => pollLoop poll fuel (i + 1) (attempts + 1)
    else some (.error "Crawl timed out after 60 seconds")

/-- The body of the `try` block of `crawlWebsite` (lines 25-62): submit, then
poll.  A `some (.ok data)` is a COMPLETED job result, a `some (.error e)` is
any thrown error, `none` means the run is still inside the loop after `fuel`
iterations. -/
def crawlInner (env : CrawlEnv) (fuel : Nat) : Option (Except String ExtractedData) :=
  match env.submit with
  | .notOk st => some (.error ("Job Submission Failed: " ++ st))
  | .badJson => some (.error "submit response body could not be parsed")
  | .accepted _ => pollLoop env.poll fuel 0 0

/-- `crawlWebsite(url)` (crawlerService.ts lines 24-73): the `catch` clause
converts every thrown error into the simulated audit (after a 2-second
delay, immaterial here), and a completed result is scored with
`processRealData`.  `uuid`/`nowIso` are the runtime-generated identity and
timestamp of whichever audit constructor runs. -/
def crawlWebsite (url : String) (env : CrawlEnv) (fuel : Nat) (uuid nowIso : String) :
    Option WebsiteAudit :=
  match crawlInner env fuel with
  | none => none
  | some (.ok data) => some (processRealData url data uuid nowIso)
  | some (.error _) => some (generateMockAudit url uuid nowIso)

theorem pollLoop_allNotOk : ∀ (fuel i : Nat),
    pollLoop (fun _ => PollOutcome.notOk) fuel i 0 = none := by
  intro fuel
  induction fuel with
  | zero => intro i; rfl
  | succ n ih =>
    intro i
    rw [pollLoop, if_pos (by decide : 0 < MAX_POLLING_ATTEMPTS)]
    exact ih (i + 1)

/-- Claim C6 (the code bug): when every poll request yields a non-ok HTTP
response, the loop body hits `continue` before `attempts++` on every
iteration, so the attempt counter never advances and the loop never
delivers a result - no iteration budget `fuel` suffices.  This contradicts
the 30-attempt ceiling (the `60 seconds max wait` of the source comment on
MAX_POLLING_ATTEMPTS) that the claim states. -/
theorem C6_polling_loop_unbounded :
    ∀ fuel : Nat, pollLoop (fun _ => PollOutcome.notOk) fuel 0 0 = none :=
  fun fuel => pollLoop_allNotOk fuel 0

/-- An environment whose submission is accepted but whose every poll request
fails with a non-ok response (for example, the engine restarted and now
answers 404 for the lost job id on every poll). -/
def envPollsAlwaysFail : CrawlEnv :=
  { submit := SubmitOutcome.accepted "job-x", poll := fun _ => PollOutcome.notOk }

/-- The run of `crawlWebsite` on `env` never delivers any value, at any
iteration budget. -/
def crawlNeverReturns (url : String) (env : CrawlEnv) (uuid nowIso : String) : Prop :=
  ∀ fuel : Nat, crawlWebsite url env fuel uuid nowIso = none

/-- Claim C7, counterexample: when every poll response is non-ok the polling
loop never terminates (claim C6), so this failure mode is neither caught
nor converted to the mock audit - the caller never receives any
`WebsiteAudit` value at all, against the claim that it always does. -/
theorem C7_counterexample :
    crawlNeverReturns "https://example.com" envPollsAlwaysFail "uuid-0"
      "2025-01-01T00:00:00.000Z" := by
  intro fuel
  show (match pollLoop (fun _ => PollOutcome.notOk) fuel 0 0 with
    | none => none
    | some (.ok data) =>
        some (processRealData "https://example.com" data "uuid-0" "2025-01-01T00:00:00.000Z")
    | some (.error _) =>
        some (generateMockAudit "https://example.com" "uuid-0" "2025-01-01T00:00:00.000Z"))
    = none
  rw [pollLoop_allNotOk]

/-- Claim C7 (amended): on every terminating run, whatever the environment
does (submission rejected, unparsable bodies, FAILED job, polling budget
exhausted), the caller receives a complete `WebsiteAudit` - either the
scored real audit of a completed job or the simulated audit produced by the
catch-all fallback; no error value ever escapes `crawlWebsite`.  (A run in
which every poll response is non-ok terminates never - see the
counterexample - so termination must be assumed.) -/
theorem C7_no_error_escapes (url : String) (env : CrawlEnv) (fuel : Nat)
    (uuid nowIso : String) (a : WebsiteAudit)
    (h : crawlWebsite url env fuel uuid nowIso = some a) :
    (∃ data, a = processRealData url data uuid nowIso) ∨
    a = generateMockAudit url uuid nowIso := by
  unfold crawlWebsite at h
  cases hc : crawlInner env fuel with
  | none => rw [hc] at h; cases h
  | some r =>
    rw [hc] at h
    cases r with
    | ok data =>
      left
      exact ⟨data, (Option.some.inj h).symm⟩
    | error e =>
      right
      exact (Option.some.inj h).symm

/-- An environment whose submission is rejected outright. -/
def envSubmitFails : CrawlEnv :=
  { submit := SubmitOutcome.notOk "Service Unavailable", poll := fun _ => PollOutcome.notOk }

/-- Witness for C7: a run whose submission is rejected terminates with the
simulated audit, a complete `WebsiteAudit`. -/
theorem C7_witness :
    (∃ data, generateMockAudit "https://example.com" "uuid-0" "2025-01-01T00:00:00.000Z"
        = processRealData "https://example.com" data "uuid-0" "2025-01-01T00:00:00.000Z") ∨
    generateMockAudit "https://example.com" "uuid-0" "2025-01-01T00:00:00.000Z"
        = generateMockAudit "https://example.com" "uuid-0" "2025-01-01T00:00:00.000Z" :=
  C7_no_error_escapes "https://example.com" envSubmitFails 0 "uuid-0"
    "2025-01-01T00:00:00.000Z"
    (generateMockAudit "https://example.com" "uuid-0" "2025-01-01T00:00:00.000Z") rfl

/-- The validation prologue of the phase-1 `POST /api/crawl` handler (bff
server lines 44-55): missing URL and unparsable URL are each rejected with
a 400 before any network activity.  `urlParses` stands for `new URL(url)`
succeeding (the WHATWG parser is external to this code). -/
def apiCrawlValidate (url : Option String) (urlParses : String → Bool) :
    Except (Nat × String) String :=
  match url with
  | none => .error (400, "URL is required")
  | some u => if urlParses u then .ok u else .error (400, "Invalid URL format")

/-- The pages the phase-1 handler fetches: it reaches its `fetch(url)` call
(line 60) only when validation passed. -/
def apiCrawlFetches (url : Option String) (urlParses : String → Bool) : List String :=
  match apiCrawlValidate url urlParses with
  | .error _ => []
  | .ok u => [u]

/-- Claim C8, counterexample: the primary headless worker performs no URL
validation at all.  On the malformed URL `"ht!tp://bad url"` the first
action it performs is launching the browser, and the malformed URL surfaces
only afterwards, as a navigation failure that marks the job FAILED - not as
a pre-navigation invalid-URL rejection without a browser launch. -/
theorem C8_counterexample :
    (processJobActions (submitJob emptyStore "job-bad" "ht!tp://bad url" 0) "job-bad"
        "ht!tp://bad url" (.navFailed "Failed to load page: Unknown Error")).head?
      = some WorkerAction.launchBrowser ∧
    ((processJob (submitJob emptyStore "job-bad" "ht!tp://bad url" 0) "job-bad"
        "ht!tp://bad url" (.navFailed "Failed to load page: Unknown Error") 1 2) "job-bad"
      |>.map Job.status) = some JobStatus.FAILED := by
  constructor
  · decide
  · decide

/-- Claim C8 (amended): only the superseded phase-1 plain-fetch variant
validates the URL before any network activity, rejecting an unparsable URL
with 400 Invalid URL format and fetching nothing; the primary
headless-browser worker performs no URL validation - for every job present
in the store it launches the browser first, whatever the URL. -/
theorem C8_url_validation (u : String) (urlParses : String → Bool)
    (s : JobStore) (jobId url : String) (j : Job) (oc : ExtractionOutcome)
    (hparse : urlParses u = false) (hjob : s jobId = some j) :
    apiCrawlValidate (some u) urlParses = .error (400, "Invalid URL format") ∧
    apiCrawlFetches (some u) urlParses = [] ∧
    (processJobActions s jobId url oc).head? = some WorkerAction.launchBrowser := by
  refine ⟨?_, ?_, ?_⟩
  · simp [apiCrawlValidate, hparse]
  · simp [apiCrawlFetches, apiCrawlValidate, hparse]
  · unfold processJobActions
    rw [hjob]
    cases oc <;> rfl

/-- Witness for C8: the phase-1 validator rejects a URL its parser refuses
without fetching, while the headless worker still launches the browser
first for a stored job with that URL. -/
theorem C8_witness :
    apiCrawlValidate (some "not a url") (fun _ => false)
        = .error (400, "Invalid URL format") ∧
    apiCrawlFetches (some "not a url") (fun _ => false) = [] ∧
    (processJobActions (storeSet emptyStore "job-3" wJob) "job-3" "not a url"
        (.extracted sampleData)).head? = some WorkerAction.launchBrowser :=
  C8_url_validation "not a url" (fun _ => false) (storeSet emptyStore "job-3" wJob)
    "job-3" "not a url" wJob (.extracted sampleData) rfl (by decide)

end NexusSEO
